import Mathlib

/-!
Verification of the "Atmo"/"Zen" weather display (zenweather).

The development shallowly embeds the decision logic of the repository:
the tennis playability evaluator (src/components/TennisIndex.tsx and the
inline variant in part_009), the day/night condition override and the
fetch-failure recovery of the root component (src/App.tsx, part_000,
part_001), the location fallback chain (src/App.tsx, part_001), the theme
lookup (src/constants.tsx), and - modelled from the specification where
the repository ships no such code - the numeric weather-code classifier
and the cache store.

Numbers that are IEEE doubles in the source are embedded as rationals;
none of the embedded logic leaves the exactly-representable range.
-/

namespace ZenWeather

/-- WeatherData (src/types inlined in part_002 and part_009): the canonical
reading passed through the system.  The condition is kept as a raw string,
exactly as the TypeScript state does after `JSON.parse`. -/
structure WeatherData where
  temp : ℚ
  condition : String
  location : String
  windSpeed : ℚ
  humidity : ℚ
  precipitation : ℚ
  sunrise : Option String
  sunset : Option String
deriving DecidableEq

/-- MOCK_WEATHER.current from src/constants.tsx (first document): the static
placeholder reading substituted when a fetch fails with no prior reading. -/
def MOCK_WEATHER_current : WeatherData :=
  { temp := 22
    condition := "clear"
    location := "Acquiring Location..."
    windSpeed := 8
    humidity := 45
    precipitation := 0
    sunrise := some "06:15"
    sunset := some "20:30" }

/-- Result record of getTennisData in src/components/TennisIndex.tsx. -/
structure TennisData where
  status : String
  score : ℕ
  color : String
  label : String
deriving DecidableEq

/-- getTennisData from src/components/TennisIndex.tsx lines 11-18,
translated clause for clause. -/
def getTennisData (w : WeatherData) : TennisData :=
  if w.precipitation > 0 then
    { status := "Courts Wet", score := 20, color := "bg-red-400", label := "Poor" }
  else if w.windSpeed > 25 then
    { status := "Too Windy", score := 40, color := "bg-amber-400", label := "Fair" }
  else if w.temp < 10 ∨ w.temp > 35 then
    { status := "Extreme Temp", score := 50, color := "bg-amber-400", label := "Okay" }
  else if 18 ≤ w.temp ∧ w.temp ≤ 24 ∧ w.windSpeed < 10 then
    { status := "Elite Play", score := 100, color := "bg-emerald-400", label := "Perfect" }
  else
    { status := "Good Play", score := 80, color := "bg-emerald-300", label := "Solid" }

/-- Result record of getTennisVerdict in part_009 lines 117-124. -/
structure TennisVerdict where
  status : String
  advice : String
  score : String
deriving DecidableEq

/-- getTennisVerdict from part_009 lines 118-124 (the v1.3.0 variant),
translated clause for clause. -/
def getTennisVerdict (w : WeatherData) : TennisVerdict :=
  if w.precipitation > 0 then
    { status := "Courts likely wet", advice := "Avoid play. Risk of injury.", score := "Poor" }
  else if w.windSpeed > 20 then
    { status := "High winds", advice := "Focus on slice and footwork.", score := "Challenging" }
  else if 15 ≤ w.temp ∧ w.temp ≤ 25 ∧ w.windSpeed < 10 then
    { status := "Perfect Conditions", advice := "Ideal for baseline rallies.", score := "Elite" }
  else
    { status := "Playable", advice := "Solid conditions for a hit.", score := "Good" }

/-- The verdict tiers named by the specification (section 4.2). -/
inductive Tier
  | poor
  | fairChallenging
  | fairOkay
  | elitePerfect
  | goodPlayable
deriving DecidableEq

/-- The evaluator as the specification words it (claim C1): first matching
rule in the fixed order precipitation, wind, extreme temperature, elite
band, default.  Written from the claim, to be compared with getTennisData. -/
def evaluateTierSpec (w : WeatherData) : Tier :=
  if w.precipitation > 0 then Tier.poor
  else if w.windSpeed > 25 then Tier.fairChallenging
  else if w.temp < 10 ∨ w.temp > 35 then Tier.fairOkay
  else if 18 ≤ w.temp ∧ w.temp ≤ 24 ∧ w.windSpeed < 10 then Tier.elitePerfect
  else Tier.goodPlayable

/-- The tier denoted by each label string getTennisData produces. -/
def tierOfLabel (label : String) : Tier :=
  if label = "Poor" then Tier.poor
  else if label = "Fair" then Tier.fairChallenging
  else if label = "Okay" then Tier.fairOkay
  else if label = "Perfect" then Tier.elitePerfect
  else Tier.goodPlayable

/-- The fixed sync-percentage lookup keyed by tier, as the specification
words it (claim C9): 20/40/50/80/100. -/
def syncScoreOfTier (label : String) : ℕ :=
  if label = "Poor" then 20
  else if label = "Fair" then 40
  else if label = "Okay" then 50
  else if label = "Solid" then 80
  else 100

/-- The reading of claim C1: precipitation 2.0 mm, wind 30 km/h, 20 degrees. -/
def stormReading : WeatherData :=
  { temp := 20, condition := "rainy", location := "Test, Test"
    windSpeed := 30, humidity := 50, precipitation := 2
    sunrise := none, sunset := none }

/-- The reading of claims C8: 22 degrees, clear, wind 8, humidity 45, dry. -/
def eliteReading : WeatherData :=
  { temp := 22, condition := "clear", location := "Basel, Switzerland"
    windSpeed := 8, humidity := 45, precipitation := 0
    sunrise := none, sunset := none }

/-- JavaScript Math.round: round half toward positive infinity. -/
def mathRound (x : ℚ) : ℤ := Int.floor (x + 1 / 2)

/-- The condition handed to the WeatherAnimations layer by the root
component (src/App.tsx line 179, likewise lines 424, part_009 line 249,
part_001 lines 212 and 512): the raw condition, except that night is
forced when the locally computed isDaytime is false AND the raw condition
equals clear. -/
def animationCondition (isDaytime : Bool) (condition : String) : String :=
  if isDaytime = false ∧ condition = "clear" then "night" else condition

/-- UI state of the root component (src/App.tsx lines 12-17): the fields the
claims reason about. -/
structure AppState where
  weather : Option WeatherData
  isLoading : Bool
  isLocating : Bool
  error : Option String
deriving DecidableEq

/-- The useState initial values of src/App.tsx lines 12-17: no reading,
loading, not locating, no error. -/
def initialAppState : AppState :=
  { weather := none, isLoading := true, isLocating := false, error := none }

/-- The success path of fetchWeather in src/App.tsx (lines 28-29, 72-73,
94-97): error cleared at entry, the parsed reading stored as is, loading
and locating flags cleared in the finally block. -/
def fetchSuccess (s : AppState) (data : WeatherData) : AppState :=
  { s with weather := some data, error := none
           isLoading := false, isLocating := false }

/-- The failure path of fetchWeather in src/App.tsx lines 90-97: the error
banner is set and the placeholder reading substituted only when no reading
is present, then the flags are cleared. -/
def fetchFailure (s : AppState) : AppState :=
  { s with error := some "Atmospheric sync failed."
           weather := match s.weather with
                      | none => some MOCK_WEATHER_current
                      | some w => some w
           isLoading := false, isLocating := false }

/-- The failure path of fetchWeather in part_000 lines 79-85: the error is
set and setWeather(MOCK_WEATHER.current) runs unconditionally, then
isLoading is cleared (this variant has no isLocating flag). -/
def fetchFailure_part000 (s : AppState) : AppState :=
  { s with error := some "Atmospheric data unavailable. Reverting to local pulse."
           weather := some MOCK_WEATHER_current
           isLoading := false }

/-- activeWeather in src/App.tsx line 137: the displayed reading is the
stored one, or the placeholder when none is stored. -/
def activeWeather (s : AppState) : WeatherData :=
  s.weather.getD MOCK_WEATHER_current

/-- ATMOSPHERIC_THEMES from src/constants.tsx: the gradient/text pair keyed
by the five condition strings, absent for every other key. -/
def ATMOSPHERIC_THEMES (c : String) : Option (String × String) :=
  if c = "clear" then some ("from-[#FDFCFB] to-[#E2D1C3]", "text-stone-800")
  else if c = "cloudy" then some ("from-[#D7DDE8] to-[#757F9A]", "text-slate-900")
  else if c = "rainy" then some ("from-[#606c88] to-[#3f4c6b]", "text-white")
  else if c = "night" then some ("from-[#2C3E50] to-[#000000]", "text-stone-200")
  else if c = "hazy" then some ("from-[#8e9eab] to-[#eef2f3]", "text-slate-700")
  else none

/-- Theme selection in src/App.tsx lines 148-152:
ATMOSPHERIC_THEMES[condition] with the clear theme as fallback. -/
def themeFor (c : String) : String × String :=
  (ATMOSPHERIC_THEMES c).getD ("from-[#FDFCFB] to-[#E2D1C3]", "text-stone-800")

/-- A reading whose condition string is outside the five-value enumeration,
as an upstream response in the AI path may produce. -/
def fogReading : WeatherData :=
  { temp := 18, condition := "fog", location := "Basel, Switzerland"
    windSpeed := 5, humidity := 50, precipitation := 0
    sunrise := none, sunset := none }

/-- A prior good reading distinct from the placeholder (the London, UK
mock entry of the multi-entry constants variant). -/
def priorReading : WeatherData :=
  { temp := 14, condition := "rainy", location := "London, UK"
    windSpeed := 15, humidity := 88, precipitation := 5.2
    sunrise := none, sunset := none }

/-- A browser geolocation position (coords of getCurrentPosition). -/
structure GeoCoords where
  latitude : ℚ
  longitude : ℚ
deriving DecidableEq

/-- Body of the ipapi.co JSON response, as read by handleLocate: the city
field may be missing. -/
structure IpData where
  city : Option String
  country_name : String
deriving DecidableEq

/-- Which fetchWeather invocation handleLocate ends up making: a coordinate
pair, a free-text location hint, or the generic no-argument call. -/
inductive FetchCall
  | coords (lat lon : ℚ)
  | hint (h : String)
  | generic
deriving DecidableEq

/-- The environment a handleLocate run observes: whether the geolocation
capability exists, its outcome, and the outcome of the IP lookup. -/
structure LocateEnv where
  geoAvailable : Bool
  geoResult : Except String GeoCoords
  ipResult : Except String IpData

/-- handleLocate from src/App.tsx lines 100-130, as the fetch call it
issues paired with whether the IP lookup was attempted: geolocation
success yields a coordinate call (IP never consulted); on geolocation
failure the IP lookup runs and yields the "city, country" hint when a city
is present, else the generic call; an IP error or a missing geolocation
capability also yield the generic call. -/
def handleLocate (env : LocateEnv) : FetchCall × Bool :=
  if env.geoAvailable then
    match env.geoResult with
    | Except.ok pos => (FetchCall.coords pos.latitude pos.longitude, false)
    | Except.error _ =>
      match env.ipResult with
      | Except.ok ipData =>
        match ipData.city with
        | some city => (FetchCall.hint (city ++ ", " ++ ipData.country_name), true)
        | none => (FetchCall.generic, true)
      | Except.error _ => (FetchCall.generic, true)
  else (FetchCall.generic, false)

/-- handleLocate from part_001 lines 111-138 (the v1.7.0 variant), as the
optional fetch call it issues paired with the state it leaves: it first
sets isLocating and clears the error; on geolocation failure it runs the
IP lookup, fetching with the hint when a city is present; when the lookup
responds without a city it neither fetches nor touches the flags; only a
thrown lookup failure sets the error and clears both flags. -/
def handleLocate_part001 (s : AppState) (env : LocateEnv) :
    Option FetchCall × AppState :=
  let s1 : AppState := { s with isLocating := true, error := none }
  if env.geoAvailable then
    match env.geoResult with
    | Except.ok pos => (some (FetchCall.coords pos.latitude pos.longitude), s1)
    | Except.error _ =>
      match env.ipResult with
      | Except.ok ipData =>
        match ipData.city with
        | some city => (some (FetchCall.hint (city ++ ", " ++ ipData.country_name)), s1)
        | none => (none, s1)
      | Except.error _ =>
        (none, { s1 with error := some "Location access denied."
                         isLocating := false, isLoading := false })
  else (some FetchCall.generic, s1)

/-- Modelled from the spec: the numeric weather-code classifier of the
deterministic-API variant is absent from src (only the AI-driven variants
ship); section 4.1 fixes its mapping.  If isDaytime is false the result is
night; otherwise codes 0-1 map to clear, 2-3 to cloudy, 45 or 48 to hazy,
and every other code to rainy. -/
def classify (code : ℕ) (isDaytime : Bool) : String :=
  if isDaytime = false then "night"
  else if code ≤ 1 then "clear"
  else if code = 2 ∨ code = 3 then "cloudy"
  else if code = 45 ∨ code = 48 then "hazy"
  else "rainy"

/-- Modelled from the spec: the cache entry of section 3 - the reading, the
capture timestamp (in minutes here, matching the minute-based time-to-live)
and the coordinates used.  No cache code ships under src. -/
structure CacheEntry where
  reading : WeatherData
  capturedAt : ℕ
  coordinates : Option GeoCoords
deriving DecidableEq

/-- The fixed cache time-to-live of sections 3 and 4.3: 30 minutes. -/
def CACHE_TTL_MINUTES : ℕ := 30

/-- The unresolved-location placeholder sentinel of section 4.3. -/
def LOCATION_SENTINEL : String := "current location"

/-- Modelled from the spec: save of section 4.3 overwrites any prior entry
unconditionally (last-write-wins; no merge). -/
def cacheSave (e : CacheEntry) (_prior : Option CacheEntry) : Option CacheEntry :=
  some e

/-- Modelled from the spec: load of section 4.3 returns absent if no entry
exists, if now minus capturedAt has reached the 30-minute time-to-live, or
if the cached location label equals the placeholder sentinel; otherwise it
returns the stored entry. -/
def cacheLoad (now : ℕ) (store : Option CacheEntry) : Option CacheEntry :=
  match store with
  | none => none
  | some e =>
    if CACHE_TTL_MINUTES ≤ now - e.capturedAt then none
    else if e.reading.location = LOCATION_SENTINEL then none
    else some e

/-- A fresh entry carrying the sentinel location label. -/
def sentinelEntry : CacheEntry :=
  { reading :=
      { temp := 20, condition := "clear", location := "current location"
        windSpeed := 5, humidity := 50, precipitation := 0
        sunrise := none, sunset := none }
    capturedAt := 100, coordinates := none }

/-- A cacheable entry with a resolved location label. -/
def baselEntry : CacheEntry :=
  { reading :=
      { temp := 22, condition := "clear", location := "Basel, Switzerland"
        windSpeed := 8, humidity := 45, precipitation := 0
        sunrise := none, sunset := none }
    capturedAt := 100, coordinates := some { latitude := 47, longitude := 7 } }

/-- C1: the tennis playability evaluator is a total function of the reading
computed by the first matching rule in the fixed order precipitation > 0
(Poor), windSpeed > 25 (Fair), temp < 10 or > 35 (Okay), temp in [18, 24]
with windSpeed < 10 (Perfect), otherwise Solid; and on the reading with
precipitation 2.0, windSpeed 30 and temperature 20 both evaluator variants
return the Poor verdict, not the wind or temperature one. -/
theorem tennis_rule_precedence :
    (∀ w : WeatherData, tierOfLabel (getTennisData w).label = evaluateTierSpec w) ∧
    (getTennisData stormReading).label = "Poor" ∧
    (getTennisData stormReading).status = "Courts Wet" ∧
    (getTennisVerdict stormReading).score = "Poor" := by
  refine ⟨?_, by decide, by decide, by decide⟩
  intro w
  unfold getTennisData evaluateTierSpec tierOfLabel
  split_ifs <;> simp_all

/-- C9: for every reading the sync percentage produced by getTennisData is
one of 20, 40, 50, 80, 100 and is the fixed lookup of the tier label alone
(20 Poor, 40 Fair, 50 Okay, 80 Solid, 100 Perfect). -/
theorem tennis_sync_score_lookup :
    ∀ w : WeatherData,
      ((getTennisData w).score = 20 ∨ (getTennisData w).score = 40 ∨
        (getTennisData w).score = 50 ∨ (getTennisData w).score = 80 ∨
        (getTennisData w).score = 100) ∧
      (getTennisData w).score = syncScoreOfTier (getTennisData w).label := by
  intro w
  unfold getTennisData
  split_ifs <;> exact ⟨by decide, by decide⟩

/-- C8: on the reading with temp 22, condition clear, windSpeed 8,
humidity 45 and precipitation 0, getTennisData lands in the elite band
(label Perfect, status Elite Play, score 100) and the displayed
Math.round value of the temperature is 22. -/
theorem elite_reading_endtoend :
    (getTennisData eliteReading).label = "Perfect" ∧
    (getTennisData eliteReading).status = "Elite Play" ∧
    (getTennisData eliteReading).score = 100 ∧
    mathRound eliteReading.temp = 22 := by
  refine ⟨by decide, by decide, by decide, ?_⟩
  unfold mathRound eliteReading
  norm_num

/-- C2 counterexample: with isDaytime false and raw condition cloudy, the
display condition stays cloudy - it is not forced to night, refuting the
claim that a false isDaytime forces night regardless of the raw value. -/
theorem night_not_forced_on_cloudy :
    animationCondition false "cloudy" = "cloudy" ∧
    animationCondition false "cloudy" ≠ "night" := by
  constructor <;> decide

/-- C2 amended: the display condition is night exactly when the raw
condition already is night, or isDaytime is false and the raw condition is
clear; during daytime every condition passes through unchanged, and at
night every raw condition other than clear also passes through
unchanged. -/
theorem night_override_only_clear :
    ∀ (d : Bool) (c : String),
      (animationCondition d c = "night" ↔
        (c = "night" ∨ (d = false ∧ c = "clear"))) ∧
      (animationCondition true c = c) ∧
      (c ≠ "clear" → animationCondition false c = c) := by
  intro d c
  refine ⟨?_, ?_, ?_⟩
  · unfold animationCondition
    split_ifs with h
    · simp [h.1, h.2]
    · constructor
      · intro hc
        exact Or.inl hc
      · rintro (hc | hc)
        · exact hc
        · exact absurd hc h
  · unfold animationCondition
    simp
  · intro hc
    unfold animationCondition
    rw [if_neg]
    intro h
    exact hc h.2

/-- C2 amended witness: at night the condition rainy is passed through
unchanged to the display. -/
theorem night_override_only_clear_witness :
    animationCondition false "rainy" = "rainy" :=
  (night_override_only_clear false "rainy").2.2 (by decide)

/-- C3 counterexample: in the part_000 variant a fetch failure replaces an
existing prior good reading with the placeholder, so the current-reading
state is not unchanged when a prior successful reading exists. -/
theorem part000_failure_discards_prior :
    (fetchFailure_part000
      { weather := some priorReading, isLoading := true
        isLocating := false, error := none }).weather ≠ some priorReading := by
  decide

/-- C3 amended: on fetch failure the src/App.tsx variant keeps the prior
reading when one exists and substitutes the fixed placeholder only when
none exists, while the part_000 variant substitutes the placeholder
unconditionally; in both variants a reading is present after the failure
and the displayed reading is the stored one or the placeholder, never
absent. -/
theorem fetch_failure_recovery :
    (∀ (s : AppState) (w : WeatherData),
      s.weather = some w → (fetchFailure s).weather = some w) ∧
    (∀ s : AppState,
      s.weather = none → (fetchFailure s).weather = some MOCK_WEATHER_current) ∧
    (∀ s : AppState, (fetchFailure_part000 s).weather = some MOCK_WEATHER_current) ∧
    (∀ s : AppState, (fetchFailure s).weather.isSome = true) ∧
    (∀ s : AppState, (fetchFailure_part000 s).weather.isSome = true) ∧
    (∀ s : AppState, s.weather = none → activeWeather s = MOCK_WEATHER_current) := by
  refine ⟨?_, ?_, ?_, ?_, ?_, ?_⟩
  · intro s w h
    unfold fetchFailure
    simp [h]
  · intro s h
    unfold fetchFailure
    simp [h]
  · intro s
    unfold fetchFailure_part000
    simp
  · intro s
    unfold fetchFailure
    cases s.weather <;> simp
  · intro s
    unfold fetchFailure_part000
    simp
  · intro s h
    unfold activeWeather
    simp [h]

/-- C3 witness: a state holding the London reading keeps it across a
fetchFailure of the src/App.tsx variant. -/
theorem fetch_failure_recovery_witness :
    (fetchFailure
      { weather := some priorReading, isLoading := true
        isLocating := false, error := none }).weather = some priorReading :=
  fetch_failure_recovery.1 _ priorReading rfl

/-- C4 counterexample: the AI path stores the parsed reading as is, so an
upstream condition outside the five enumerated values (here fog) is stored
unchanged - it is not substituted by clear. -/
theorem unrecognized_condition_stored :
    (fetchSuccess initialAppState fogReading).weather = some fogReading ∧
    fogReading.condition ∉ ["clear", "cloudy", "rainy", "night", "hazy"] := by
  constructor <;> decide

/-- C4 amended: the condition stored in the weather state is exactly the
upstream string, unvalidated; the only local substitution of clear is in
the theme lookup, which falls back to the clear theme for every key
outside the five enumerated conditions. -/
theorem condition_unvalidated_theme_fallback :
    (∀ (s : AppState) (d : WeatherData), (fetchSuccess s d).weather = some d) ∧
    (∀ c : String, ATMOSPHERIC_THEMES c = none → themeFor c = themeFor "clear") := by
  constructor
  · intro s d
    rfl
  · intro c h
    unfold themeFor
    rw [h]
    rfl

/-- C4 witness: the unrecognized key fog has no theme entry, so its theme
falls back to the clear theme. -/
theorem condition_unvalidated_theme_fallback_witness :
    themeFor "fog" = themeFor "clear" :=
  condition_unvalidated_theme_fallback.2 "fog" (by decide)

/-- C5: when geolocation fails and the IP lookup answers with city Paris
and country France, handleLocate invokes the weather fetch with the
free-text hint "Paris, France" and no coordinate pair; and whenever the IP
lookup is attempted at all, the geolocation step existed and had failed
first. -/
theorem ip_fallback_descriptor :
    (∀ (env : LocateEnv) (e : String),
      env.geoAvailable = true →
      env.geoResult = Except.error e →
      env.ipResult = Except.ok { city := some "Paris", country_name := "France" } →
      handleLocate env = (FetchCall.hint "Paris, France", true)) ∧
    (∀ env : LocateEnv, (handleLocate env).2 = true →
      env.geoAvailable = true ∧ ∃ e, env.geoResult = Except.error e) := by
  constructor
  · intro env e hg hr hi
    unfold handleLocate
    rw [hg, hr, hi]
    rfl
  · intro env h
    obtain ⟨ga, gr, ir⟩ := env
    cases ga
    · simp [handleLocate] at h
    · refine ⟨rfl, ?_⟩
      cases gr with
      | ok pos => simp [handleLocate] at h
      | error e => exact ⟨e, rfl⟩

/-- C5 witness: the concrete environment of the claim - geolocation
available but denied, IP lookup returning Paris, France - yields the hint
call "Paris, France" with the IP step attempted. -/
theorem ip_fallback_descriptor_witness :
    handleLocate
      { geoAvailable := true, geoResult := Except.error "denied"
        ipResult := Except.ok { city := some "Paris", country_name := "France" } } =
      (FetchCall.hint "Paris, France", true) :=
  ip_fallback_descriptor.1 _ "denied" rfl rfl rfl

/-- C10: in the part_001 variant, when geolocation fails and the IP lookup
responds successfully but without a city, handleLocate issues no fetch
call, leaves the stored reading untouched, leaves isLocating true and
passes isLoading through unchanged; from the initial state (isLoading
true) the loading screen therefore persists. -/
theorem part001_no_city_stuck_loading :
    (∀ (s : AppState) (env : LocateEnv) (e : String) (d : IpData),
      env.geoAvailable = true →
      env.geoResult = Except.error e →
      env.ipResult = Except.ok d →
      d.city = none →
      (handleLocate_part001 s env).1 = none ∧
      (handleLocate_part001 s env).2.isLocating = true ∧
      (handleLocate_part001 s env).2.isLoading = s.isLoading ∧
      (handleLocate_part001 s env).2.weather = s.weather) ∧
    (handleLocate_part001 initialAppState
      { geoAvailable := true, geoResult := Except.error "denied"
        ipResult := Except.ok { city := none, country_name := "France" } }).2.isLoading
      = true := by
  constructor
  · intro s env e d hg hr hi hc
    simp [handleLocate_part001, hg, hr, hi, hc]
  · rfl

/-- C10 witness: the concrete no-city environment from the initial state
issues no fetch and leaves the locating flag set and the reading absent. -/
theorem part001_no_city_stuck_loading_witness :
    (handleLocate_part001 initialAppState
      { geoAvailable := true, geoResult := Except.error "denied"
        ipResult := Except.ok { city := none, country_name := "France" } }).1 = none ∧
    (handleLocate_part001 initialAppState
      { geoAvailable := true, geoResult := Except.error "denied"
        ipResult := Except.ok { city := none, country_name := "France" } }).2.isLocating = true ∧
    (handleLocate_part001 initialAppState
      { geoAvailable := true, geoResult := Except.error "denied"
        ipResult := Except.ok { city := none, country_name := "France" } }).2.isLoading
      = initialAppState.isLoading ∧
    (handleLocate_part001 initialAppState
      { geoAvailable := true, geoResult := Except.error "denied"
        ipResult := Except.ok { city := none, country_name := "France" } }).2.weather
      = initialAppState.weather :=
  part001_no_city_stuck_loading.1 initialAppState _ "denied"
    { city := none, country_name := "France" } rfl rfl rfl rfl

/-- C7: for every numeric upstream weather code with isDaytime true,
classify returns clear for codes 0 and 1, cloudy for 2 and 3, hazy for 45
and 48, rainy for every other code, and always one of these four values,
never an error or an invalid value. -/
theorem classify_daytime_mapping :
    classify 0 true = "clear" ∧ classify 1 true = "clear" ∧
    classify 2 true = "cloudy" ∧ classify 3 true = "cloudy" ∧
    classify 45 true = "hazy" ∧ classify 48 true = "hazy" ∧
    (∀ code : ℕ, code ∉ ([0, 1, 2, 3, 45, 48] : List ℕ) →
      classify code true = "rainy") ∧
    (∀ code : ℕ,
      classify code true = "clear" ∨ classify code true = "cloudy" ∨
      classify code true = "hazy" ∨ classify code true = "rainy") := by
  refine ⟨by decide, by decide, by decide, by decide, by decide, by decide, ?_, ?_⟩
  · intro code h
    simp only [List.mem_cons, List.not_mem_nil, or_false] at h
    push_neg at h
    obtain ⟨h0, h1, h2, h3, h45, h48⟩ := h
    unfold classify
    have hle : ¬ code ≤ 1 := by omega
    simp [hle, h2, h3, h45, h48]
  · intro code
    unfold classify
    split_ifs <;> simp_all

/-- C7 witness: the out-of-vocabulary code 99 classifies as rainy. -/
theorem classify_daytime_mapping_witness :
    classify 99 true = "rainy" :=
  classify_daytime_mapping.2.2.2.2.2.2.1 99 (by decide)

/-- C6 counterexample: a fresh entry whose location label is the sentinel
is saved and then loaded at the very capture instant - well inside the
30-minute time-to-live - yet load returns absent, refuting the claim's
unconditional round-trip clause. -/
theorem cache_sentinel_breaks_roundtrip :
    cacheLoad 100 (cacheSave sentinelEntry none) = none ∧
    100 - sentinelEntry.capturedAt < CACHE_TTL_MINUTES := by
  constructor <;> decide

/-- C6 amended: for every entry whose location label is not the sentinel,
save followed by load before the 30-minute time-to-live has elapsed
returns the saved entry; load after the time-to-live has elapsed returns
absent; and load of a sentinel-labelled entry returns absent even when
fresh. -/
theorem cache_roundtrip_ttl_sentinel :
    (∀ (e : CacheEntry) (store : Option CacheEntry) (now : ℕ),
      e.reading.location ≠ LOCATION_SENTINEL →
      now - e.capturedAt < CACHE_TTL_MINUTES →
      cacheLoad now (cacheSave e store) = some e) ∧
    (∀ (e : CacheEntry) (store : Option CacheEntry) (now : ℕ),
      CACHE_TTL_MINUTES ≤ now - e.capturedAt →
      cacheLoad now (cacheSave e store) = none) ∧
    (∀ (e : CacheEntry) (store : Option CacheEntry) (now : ℕ),
      e.reading.location = LOCATION_SENTINEL →
      cacheLoad now (cacheSave e store) = none) := by
  refine ⟨?_, ?_, ?_⟩
  · intro e store now hs ht
    simp only [cacheSave, cacheLoad]
    rw [if_neg (by omega), if_neg hs]
  · intro e store now ht
    simp only [cacheSave, cacheLoad]
    rw [if_pos ht]
  · intro e store now hs
    simp only [cacheSave, cacheLoad]
    split_ifs with h1
    · rfl
    · rfl

/-- C6 witness: the Basel entry saved at minute 100 and loaded at minute
110 comes back unchanged. -/
theorem cache_roundtrip_ttl_sentinel_witness :
    cacheLoad 110 (cacheSave baselEntry none) = some baselEntry :=
  cache_roundtrip_ttl_sentinel.1 baselEntry none 110 (by decide) (by decide)

end ZenWeather
